import Mathlib

/-!
Shallow embedding of `examples/05_stable_diffusion/src/pipeline_stable_diffusion_controlnet_ait.py`
(class `StableDiffusionAITPipeline`) and proofs about it.

Tensors are modelled as a shape together with batch-major rational data:
the outer list of `data` is the batch (dim-0) axis, each entry a flattened
slice.  The four compiled AIT modules, the tokenizer and the scheduler are
external collaborators; they enter the model as opaque function fields of
an `Env` record, while everything the pipeline file itself computes
(validation, guidance combination, the denoising loop, post-processing)
is translated directly from the source.
-/

namespace SDAIT

/-- A torch tensor: `shape` and batch-major `data` (dim 0 outermost). -/
structure Tensor where
  shape : List ℕ
  data : List (List ℚ)
deriving DecidableEq, Repr

namespace Tensor

/-- `torch.cat([t] * 2)`: duplicate along the batch dimension (source line 497). -/
def cat2 (t : Tensor) : Tensor :=
  ⟨(2 * t.shape.headD 0) :: t.shape.tail, t.data ++ t.data⟩

/-- `torch.cat([a, b])` along dim 0 (source line 443). -/
def cat (a b : Tensor) : Tensor :=
  ⟨(a.shape.headD 0 + b.shape.headD 0) :: a.shape.tail, a.data ++ b.data⟩

/-- First half of `t.chunk(2)` along dim 0 (source line 516); torch chunks
have size `⌈n / 2⌉` for the first chunk. -/
def chunkFst (t : Tensor) : Tensor :=
  ⟨((t.shape.headD 0 + 1) / 2) :: t.shape.tail, t.data.take ((t.data.length + 1) / 2)⟩

/-- Second half of `t.chunk(2)` along dim 0 (source line 516). -/
def chunkSnd (t : Tensor) : Tensor :=
  ⟨(t.shape.headD 0 - (t.shape.headD 0 + 1) / 2) :: t.shape.tail,
   t.data.drop ((t.data.length + 1) / 2)⟩

/-- Elementwise map, keeping the shape. -/
def emap (f : ℚ → ℚ) (t : Tensor) : Tensor :=
  ⟨t.shape, t.data.map (fun row => row.map f)⟩

/-- Elementwise binary operation; shape taken from the first argument. -/
def map2 (f : ℚ → ℚ → ℚ) (a b : Tensor) : Tensor :=
  ⟨a.shape, List.zipWith (fun r s => List.zipWith f r s) a.data b.data⟩

/-- Elementwise addition. -/
def add (a b : Tensor) : Tensor := map2 (fun x y => x + y) a b

/-- Elementwise subtraction. -/
def sub (a b : Tensor) : Tensor := map2 (fun x y => x - y) a b

/-- Multiplication by a scalar. -/
def smul (c : ℚ) (t : Tensor) : Tensor := emap (fun x => c * x) t

/-- `.clamp(0, 1)` (source line 531). -/
def clamp01 (t : Tensor) : Tensor := emap (fun x => max 0 (min 1 x)) t

/-- `shape[-1]` (source line 411). -/
def lastDim (t : Tensor) : ℕ := t.shape.getLastD 0

/-- The multiset of scalar entries of the tensor, as a flat list. -/
def elems (t : Tensor) : List ℚ := t.data.flatten

end Tensor

/-- The Python value passed as `prompt` / `negative_prompt`: a `str`,
a `list` of `str`, or a value of any other type. -/
inductive PromptVal where
  | str (s : String)
  | list (l : List String)
  | other
deriving DecidableEq, Repr

/-- `type(a) is type(b)` restricted to the prompt values we model. -/
def sameType : PromptVal → PromptVal → Bool
  | .str _, .str _ => true
  | .list _, .list _ => true
  | .other, .other => true
  | _, _ => false

/-- The texts handed to the tokenizer for a prompt value: a `str` tokenizes
as a single text, a `list` as itself (`.other` never reaches the tokenizer). -/
def promptTexts : PromptVal → List String
  | .str s => [s]
  | .list l => l
  | .other => []

/-- The exceptions `__call__` can raise, tagged by raise site. -/
inductive PyErr where
  | promptTypeValueError
  | dimsValueError
  | negPromptTypeError
  | negPromptLenValueError
  | latentsShapeValueError
deriving DecidableEq, Repr

/-- Whether the exception is a Python `ValueError` (all raise sites except
the negative-prompt type check, which raises `TypeError`). -/
def PyErr.isValueError : PyErr → Bool
  | .negPromptTypeError => false
  | _ => true

/-- Whether the exception is a Python `TypeError`. -/
def PyErr.isTypeError (e : PyErr) : Bool := !e.isValueError

/-- The generated images of the returned output: `numpy_to_pil(arr)` when
`output_type == "pil"` (the PIL value is modelled by the array it was
converted from), otherwise the numpy array itself. -/
inductive ImagesOut where
  | pil (src : Tensor)
  | arr (a : Tensor)
deriving DecidableEq, Repr

/-- The scalar entries of the image array underlying the output (the array
converted to PIL, or the array returned directly). -/
def ImagesOut.srcElems : ImagesOut → List ℚ
  | .pil src => src.elems
  | .arr a => a.elems

/-- The value returned by `__call__`: a `StableDiffusionPipelineOutput`
when `return_dict` (modelled by `as_dict = true`), else the pair
`(image, has_nsfw_concept)`. -/
structure CallOut where
  images : ImagesOut
  nsfw_content_detected : Option (List Bool)
  as_dict : Bool
deriving DecidableEq, Repr

/-- The external collaborators of the pipeline: the tokenizer, the four
compiled-module inference wrappers, and the `EulerDiscreteScheduler`.
`timesteps n` is `scheduler.timesteps` after `set_timesteps(n, ...)`;
`scheduler_step` returns `.prev_sample` and receives the generator that
`extra_step_kwargs` forwards; `randn` models `torch.randn(shape, generator)`
(the generator is an opaque seed); `permute0231` models
`.permute(0, 2, 3, 1)` on the image tensor. -/
structure Env where
  model_max_length : ℕ
  tokenize : List String → ℕ → Tensor
  clip_inference : Tensor → Tensor
  controlnet_inference : Tensor → ℚ → Tensor → Tensor → List Tensor × Tensor
  unet_inference : Tensor → ℚ → Tensor → ℕ → ℕ → List Tensor → Tensor → Tensor
  vae_inference : Tensor → ℕ → ℕ → Tensor
  timesteps : ℕ → List ℚ
  init_noise_sigma : ℚ
  scale_model_input : Tensor → ℚ → Tensor
  scheduler_step : Tensor → ℚ → Tensor → Option ℕ → Tensor
  randn : List ℕ → Option ℕ → Tensor
  permute0231 : Tensor → Tensor

/-- The arguments of `StableDiffusionAITPipeline.__call__`
(source lines 314-327); `eta` is accepted but, with the
`EulerDiscreteScheduler` installed by `__init__`, never forwarded
(`accepts_eta` is false), so it does not appear in the computation. -/
structure CallArgs where
  prompt : PromptVal
  control_cond : Tensor
  height : ℕ
  width : ℕ
  num_inference_steps : ℕ
  guidance_scale : ℚ
  negative_prompt : Option PromptVal
  eta : ℚ
  generator : Option ℕ
  latents : Option Tensor
  output_type : String
  return_dict : Bool
deriving Repr

/-- Source lines 376-383: prompt-type validation and batch size. -/
def batch_size_of : PromptVal → Except PyErr ℕ
  | .str _ => .ok 1
  | .list l => .ok l.length
  | .other => .error .promptTypeValueError

/-- Source lines 410-428: the `uncond_tokens` computation, including the
negative-prompt type and length validation.  Only ever reached with a
`prompt` that already passed `batch_size_of` (so `.other` prompts never
arrive here). -/
def uncondTokens (batch_size : ℕ) (prompt : PromptVal) :
    Option PromptVal → Except PyErr (List String)
  | none => .ok (List.replicate batch_size "")
  | some np =>
    if !sameType prompt np then .error .negPromptTypeError
    else
      match np with
      | .str s => .ok [s]
      | .list l =>
        if batch_size ≠ l.length then .error .negPromptLenValueError else .ok l
      | .other => .ok []

/-- One iteration of the denoising loop, source lines 494-523: expand the
latents when doing classifier-free guidance, scale via the scheduler, run
the ControlNet, feed its residuals to the UNet, combine the chunks with the
guidance scale, and step the scheduler. -/
def denoiseIter (env : Env) (do_cfg : Bool) (guidance_scale : ℚ)
    (text_embeddings control_cond : Tensor) (height width : ℕ)
    (generator : Option ℕ) (latents : Tensor) (t : ℚ) : Tensor :=
  let latent_model_input := if do_cfg then Tensor.cat2 latents else latents
  let latent_model_input := env.scale_model_input latent_model_input t
  let res := env.controlnet_inference latent_model_input t text_embeddings control_cond
  let noise_pred :=
    env.unet_inference latent_model_input t text_embeddings height width res.1 res.2
  let noise_pred :=
    if do_cfg then
      let noise_pred_uncond := Tensor.chunkFst noise_pred
      let noise_pred_text := Tensor.chunkSnd noise_pred
      Tensor.add noise_pred_uncond
        (Tensor.smul guidance_scale (Tensor.sub noise_pred_text noise_pred_uncond))
    else noise_pred
  env.scheduler_step noise_pred t latents generator

/-- Source lines 393-443: tokenize the prompt, run the CLIP module and,
when doing classifier-free guidance, validate the negative prompt,
tokenize and encode it and concatenate the two embedding batches. -/
def textEmbRes (env : Env) (a : CallArgs) (batch_size : ℕ) : Except PyErr Tensor :=
  let text_input := env.tokenize (promptTexts a.prompt) env.model_max_length
  let text_embeddings := env.clip_inference text_input
  if decide (1 < a.guidance_scale) then
    match uncondTokens batch_size a.prompt a.negative_prompt with
    | .error e => .error e
    | .ok uncond_tokens =>
      let uncond_input := env.tokenize uncond_tokens text_input.lastDim
      let uncond_embeddings := env.clip_inference uncond_input
      .ok (Tensor.cat uncond_embeddings text_embeddings)
  else .ok text_embeddings

/-- Source lines 451-463: take the supplied latents after checking their
shape against `(batch_size, 4, height // 8, width // 8)`, or sample fresh
latents of that shape with the supplied generator. -/
def latentsRes (env : Env) (a : CallArgs) (batch_size : ℕ) : Except PyErr Tensor :=
  let latents_shape := [batch_size, 4, a.height / 8, a.width / 8]
  match a.latents with
  | none => .ok (env.randn latents_shape a.generator)
  | some l =>
    if l.shape ≠ latents_shape then .error .latentsShapeValueError else .ok l

/-- Source lines 473-544: multiply the initial latents by
`init_noise_sigma`, fold the denoising iteration over the scheduler
timesteps, multiply by `1 / 0.18215`, decode with the VAE, normalize,
clamp, permute to channels-last, and package the output (the safety
checker of the upstream pipeline is absent: `has_nsfw_concept = None`). -/
def denoiseAndPack (env : Env) (a : CallArgs)
    (text_embeddings latents0 : Tensor) : CallOut :=
  let latents := Tensor.smul env.init_noise_sigma latents0
  let latents := (env.timesteps a.num_inference_steps).foldl
    (denoiseIter env (decide (1 < a.guidance_scale)) a.guidance_scale
      text_embeddings a.control_cond a.height a.width a.generator) latents
  let latents := Tensor.smul (1 / (0.18215 : ℚ)) latents
  let image := env.vae_inference latents a.height a.width
  let image := Tensor.clamp01 (Tensor.emap (fun x => x / 2 + 1 / 2) image)
  let image := env.permute0231 image
  let has_nsfw_concept : Option (List Bool) := none
  let images :=
    if a.output_type = "pil" then ImagesOut.pil image else ImagesOut.arr image
  { images := images,
    nsfw_content_detected := has_nsfw_concept,
    as_dict := a.return_dict }

/-- `StableDiffusionAITPipeline.__call__`, source lines 314-544, translated
statement by statement; raises become `Except.error`. -/
def call (env : Env) (a : CallArgs) : Except PyErr CallOut :=
  match batch_size_of a.prompt with
  | .error e => .error e
  | .ok batch_size =>
    if a.height % 8 ≠ 0 ∨ a.width % 8 ≠ 0 then .error .dimsValueError
    else
      match textEmbRes env a batch_size with
      | .error e => .error e
      | .ok text_embeddings =>
        match latentsRes env a batch_size with
        | .error e => .error e
        | .ok latents => .ok (denoiseAndPack env a text_embeddings latents)

/-- The batch size of a prompt that passed validation (`.other` is mapped
to 0, a value never reached on the success path). -/
def batchSizeD : PromptVal → ℕ
  | .str _ => 1
  | .list l => l.length
  | .other => 0

/-- Total version of `uncondTokens`, agreeing with it whenever it
succeeds (error branches are mapped to `[]`). -/
def uncondTokensD (batch_size : ℕ) (prompt : PromptVal) :
    Option PromptVal → List String
  | none => List.replicate batch_size ""
  | some np =>
    if !sameType prompt np then []
    else
      match np with
      | .str s => [s]
      | .list l => if batch_size ≠ l.length then [] else l
      | .other => []

/-- The `text_embeddings` tensor entering the denoising loop on the
success path (source lines 393-443). -/
def textEmbeddingsD (env : Env) (a : CallArgs) (batch_size : ℕ) : Tensor :=
  let text_input := env.tokenize (promptTexts a.prompt) env.model_max_length
  let text_embeddings := env.clip_inference text_input
  if decide (1 < a.guidance_scale) then
    let uncond_input :=
      env.tokenize (uncondTokensD batch_size a.prompt a.negative_prompt)
        text_input.lastDim
    Tensor.cat (env.clip_inference uncond_input) text_embeddings
  else text_embeddings

/-- The initial latents on the success path: the supplied tensor, or a
fresh `randn` of the expected shape with the supplied generator
(source lines 451-463). -/
def initialLatentsD (env : Env) (a : CallArgs) : Tensor :=
  match a.latents with
  | none =>
    env.randn [batchSizeD a.prompt, 4, a.height / 8, a.width / 8] a.generator
  | some l => l

/-- The success-path value of `__call__` given the initial latents
`latents0` (the denoising loop and packaging of `denoiseAndPack`, with the
text embeddings resolved). -/
def successOut (env : Env) (a : CallArgs) (latents0 : Tensor) : CallOut :=
  denoiseAndPack env a (textEmbeddingsD env a (batchSizeD a.prompt)) latents0

/-- All validation checks performed by `__call__` before the latents shape
check, in source order. -/
def preLatentsChecks (a : CallArgs) : Bool :=
  (batch_size_of a.prompt).isOk
    && (a.height % 8 == 0) && (a.width % 8 == 0)
    && (!decide (1 < a.guidance_scale)
        || (uncondTokens (batchSizeD a.prompt) a.prompt a.negative_prompt).isOk)

/-- All validation checks performed by `__call__`, in source order; when
this holds the call returns `.ok`. -/
def passesChecks (a : CallArgs) : Bool :=
  preLatentsChecks a
    && (match a.latents with
        | none => true
        | some l =>
          l.shape == [batchSizeD a.prompt, 4, a.height / 8, a.width / 8])

/-- Classifier-free guidance combination as worded in claim C1: the noise
prediction is `noise_pred_uncond + guidance_scale * (noise_pred_text -
noise_pred_uncond)`, where `noise_pred_uncond` and `noise_pred_text` are
the first and second halves of the UNet output chunked along the batch
dimension. -/
def guidanceCombine (guidance_scale : ℚ) (unet_out : Tensor) : Tensor :=
  Tensor.add (Tensor.chunkFst unet_out)
    (Tensor.smul guidance_scale
      (Tensor.sub (Tensor.chunkSnd unet_out) (Tensor.chunkFst unet_out)))

/-- The raw UNet output of one denoising iteration, before any guidance
combination (source lines 496-512). -/
def rawUnetOut (env : Env) (guidance_scale : ℚ)
    (text_embeddings control_cond : Tensor) (height width : ℕ)
    (latents : Tensor) (t : ℚ) : Tensor :=
  let latent_model_input :=
    if decide (1 < guidance_scale) then Tensor.cat2 latents else latents
  let latent_model_input := env.scale_model_input latent_model_input t
  let res := env.controlnet_inference latent_model_input t text_embeddings control_cond
  env.unet_inference latent_model_input t text_embeddings height width res.1 res.2

/-- One denoising iteration as worded in claim C2: the latent model input
is the current latents duplicated along the batch dimension when
`guidance_scale > 1` (otherwise the latents themselves) and then scaled by
`scheduler.scale_model_input`; `controlnet_inference` is run on this input
and its down-block and mid-block residual outputs are passed to
`unet_inference` of the same iteration; the latents carried to the next
iteration are `scheduler.step(noise_pred, t, latents).prev_sample`, with
`noise_pred` the guidance combination of claim C1. -/
def claimIterate (env : Env) (guidance_scale : ℚ)
    (text_embeddings control_cond : Tensor) (height width : ℕ)
    (generator : Option ℕ) (latents : Tensor) (t : ℚ) : Tensor :=
  let input :=
    env.scale_model_input
      (if 1 < guidance_scale then Tensor.cat2 latents else latents) t
  let res := env.controlnet_inference input t text_embeddings control_cond
  let noise_pred := env.unet_inference input t text_embeddings height width res.1 res.2
  let noise_pred :=
    if 1 < guidance_scale then guidanceCombine guidance_scale noise_pred
    else noise_pred
  env.scheduler_step noise_pred t latents generator

/-- The output of a validated call as worded in claim C2: the denoising
loop folds `claimIterate` over `scheduler.timesteps` in their given order,
starting from the initial latents multiplied by `init_noise_sigma`; after
the last timestep the latents are multiplied by `1 / 0.18215` and decoded
by `vae_inference`; the remaining post-processing is the source's. -/
def claimOutput (env : Env) (a : CallArgs) : CallOut :=
  let batch_size := batchSizeD a.prompt
  let text_embeddings := textEmbeddingsD env a batch_size
  let latents :=
    Tensor.smul env.init_noise_sigma (initialLatentsD env a)
  let latents := (env.timesteps a.num_inference_steps).foldl
    (claimIterate env a.guidance_scale text_embeddings a.control_cond
      a.height a.width a.generator) latents
  let image :=
    env.vae_inference (Tensor.smul (1 / (0.18215 : ℚ)) latents) a.height a.width
  let image :=
    env.permute0231 (Tensor.clamp01 (Tensor.emap (fun x => x / 2 + 1 / 2) image))
  { images :=
      if a.output_type = "pil" then ImagesOut.pil image else ImagesOut.arr image,
    nsfw_content_detected := none,
    as_dict := a.return_dict }

/-- The four compiled AIT modules bound by `__init__`. -/
inductive AITModule where
  | controlnet | clip | unet | vae
deriving DecidableEq, Repr

/-- The operations of the compiled-model runtime that the pipeline invokes
on a module. -/
inductive RtOp where
  | set_many_constants_with_tensors | fold_constants | run_with_tensors
deriving DecidableEq, Repr

/-- A runtime call: which module, which operation. -/
abbrev RtEvent := AITModule × RtOp

/-- The runtime calls issued by `StableDiffusionAITPipeline.__init__`, in
source order (lines 98-99, 119-121, 143-145, 200-202). -/
def initEvents : List RtEvent :=
  [(.controlnet, .set_many_constants_with_tensors), (.controlnet, .fold_constants),
   (.clip, .set_many_constants_with_tensors), (.clip, .fold_constants),
   (.unet, .set_many_constants_with_tensors), (.unet, .fold_constants),
   (.vae, .set_many_constants_with_tensors), (.vae, .fold_constants)]

/-- The runtime calls issued by a successful `__call__` doing `steps`
denoising iterations: one CLIP run for the prompt, a second when doing
classifier-free guidance, a ControlNet and a UNet run per iteration, and a
final VAE run. -/
def callEvents (do_cfg : Bool) (steps : ℕ) : List RtEvent :=
  [(.clip, .run_with_tensors)]
    ++ (if do_cfg then [(.clip, .run_with_tensors)] else [])
    ++ (List.replicate steps
          [((.controlnet : AITModule), (.run_with_tensors : RtOp)),
           (.unet, .run_with_tensors)]).flatten
    ++ [(.vae, .run_with_tensors)]

/-- The runtime calls of a whole program run: `__init__` first, then one
`__call__`. -/
def programEvents (do_cfg : Bool) (steps : ℕ) : List RtEvent :=
  initEvents ++ callEvents do_cfg steps

/-! Helper lemmas shared by several claims. -/

theorem batch_size_of_eq {p : PromptVal} (h : (batch_size_of p).isOk = true) :
    batch_size_of p = .ok (batchSizeD p) := by
  cases p <;> simp_all [batch_size_of, batchSizeD, Except.isOk, Except.toBool]

theorem uncondTokens_ok_eq {bs : ℕ} {p : PromptVal} {np : Option PromptVal}
    (h : (uncondTokens bs p np).isOk = true) :
    uncondTokens bs p np = .ok (uncondTokensD bs p np) := by
  cases np with
  | none => simp [uncondTokens, uncondTokensD]
  | some n =>
    by_cases hs : sameType p n
    · cases n with
      | str s => simp [uncondTokens, uncondTokensD, hs]
      | list m =>
        by_cases hb : bs = m.length
        · simp [uncondTokens, uncondTokensD, hs, hb]
        · simp [uncondTokens, hs, hb, Except.isOk, Except.toBool] at h
      | other => simp [uncondTokens, uncondTokensD, hs]
    · simp [uncondTokens, hs, Except.isOk, Except.toBool] at h

theorem textEmbRes_eq_ok {env : Env} {a : CallArgs} {bs : ℕ}
    (h : (!decide (1 < a.guidance_scale)
          || (uncondTokens bs a.prompt a.negative_prompt).isOk) = true) :
    textEmbRes env a bs = .ok (textEmbeddingsD env a bs) := by
  by_cases hg : 1 < a.guidance_scale
  · have hok : (uncondTokens bs a.prompt a.negative_prompt).isOk = true := by
      simpa [hg] using h
    simp [textEmbRes, textEmbeddingsD, hg, uncondTokens_ok_eq hok]
  · simp [textEmbRes, textEmbeddingsD, hg]

theorem latentsRes_eq_ok {env : Env} {a : CallArgs}
    (h : (match a.latents with
          | none => true
          | some l =>
            l.shape == [batchSizeD a.prompt, 4, a.height / 8, a.width / 8]) = true) :
    latentsRes env a (batchSizeD a.prompt) = .ok (initialLatentsD env a) := by
  cases hl : a.latents with
  | none => simp [latentsRes, initialLatentsD, hl]
  | some l =>
    rw [hl] at h
    simp only [beq_iff_eq] at h
    simp [latentsRes, initialLatentsD, hl, h]

theorem call_eq_ok_of_checks (env : Env) (a : CallArgs)
    (h : passesChecks a = true) :
    call env a = .ok (successOut env a (initialLatentsD env a)) := by
  have h' := h
  simp only [passesChecks, preLatentsChecks, Bool.and_eq_true] at h'
  obtain ⟨⟨⟨⟨hbs, hh⟩, hw⟩, hneg⟩, hlat⟩ := h'
  have hb := batch_size_of_eq hbs
  have hdim : ¬(a.height % 8 ≠ 0 ∨ a.width % 8 ≠ 0) := by
    simp only [beq_iff_eq] at hh hw
    simp [hh, hw]
  rw [call]
  simp only [hb, if_neg hdim, textEmbRes_eq_ok hneg, latentsRes_eq_ok hlat]
  rfl

theorem call_ok_inv {env : Env} {a : CallArgs} {out : CallOut}
    (h : call env a = .ok out) :
    ∃ temb lat, out = denoiseAndPack env a temb lat := by
  rw [call] at h
  split at h
  · cases h
  · split at h
    · cases h
    · split at h
      · cases h
      · split at h
        · cases h
        · exact ⟨_, _, (Except.ok.inj h).symm⟩

theorem denoiseIter_eq_claimIterate (env : Env) (g : ℚ) (temb cc : Tensor)
    (hh ww : ℕ) (gen : Option ℕ) (lat : Tensor) (t : ℚ) :
    denoiseIter env (decide (1 < g)) g temb cc hh ww gen lat t
      = claimIterate env g temb cc hh ww gen lat t := by
  by_cases hg : 1 < g <;>
    simp [denoiseIter, claimIterate, guidanceCombine, hg]

theorem srcElems_denoiseAndPack (env : Env) (a : CallArgs)
    (temb lat : Tensor) :
    ∃ v : Tensor,
      (denoiseAndPack env a temb lat).images.srcElems
        = (env.permute0231 (Tensor.clamp01 v)).elems := by
  by_cases hp : a.output_type = "pil" <;>
    simp only [denoiseAndPack, hp, ite_true, ite_false, ImagesOut.srcElems] <;>
    exact ⟨_, rfl⟩

theorem mem_clamp01 {t : Tensor} {x : ℚ}
    (h : x ∈ (Tensor.clamp01 t).elems) : 0 ≤ x ∧ x ≤ 1 := by
  simp only [Tensor.clamp01, Tensor.emap, Tensor.elems, List.mem_flatten,
    List.mem_map] at h
  obtain ⟨row, ⟨r0, _, hrow⟩, hx⟩ := h
  subst hrow
  simp only [List.mem_map] at hx
  obtain ⟨y, _, hy⟩ := hx
  subst hy
  exact ⟨le_max_left 0 _, max_le zero_le_one (min_le_left 1 y)⟩

theorem batch_size_of_error_cases {p : PromptVal} {e : PyErr}
    (h : batch_size_of p = .error e) :
    e = .promptTypeValueError ∧ p = .other := by
  cases p <;> simp_all [batch_size_of]

theorem uncondTokens_error_cases {bs : ℕ} {p : PromptVal}
    {np : Option PromptVal} {e : PyErr}
    (h : uncondTokens bs p np = .error e) :
    e = .negPromptTypeError ∨ e = .negPromptLenValueError := by
  cases np with
  | none => simp [uncondTokens] at h
  | some n =>
    by_cases hs : sameType p n
    · cases n with
      | str s => simp [uncondTokens, hs] at h
      | list m =>
        by_cases hb : bs = m.length
        · simp [uncondTokens, hs, hb] at h
        · simp only [uncondTokens, hs, Bool.not_true, Bool.false_eq_true,
            if_false] at h
          rw [if_pos hb] at h
          exact Or.inr (Except.error.inj h).symm
      | other => simp [uncondTokens, hs] at h
    · simp only [uncondTokens, hs, Bool.not_false, if_true] at h
      exact Or.inl (Except.error.inj h).symm

theorem textEmbRes_error_cases {env : Env} {a : CallArgs} {bs : ℕ} {e : PyErr}
    (h : textEmbRes env a bs = .error e) :
    (e = .negPromptTypeError ∨ e = .negPromptLenValueError)
      ∧ 1 < a.guidance_scale := by
  by_cases hg : 1 < a.guidance_scale
  · simp only [textEmbRes] at h
    rw [if_pos (by simp [hg])] at h
    refine ⟨?_, hg⟩
    cases hu : uncondTokens bs a.prompt a.negative_prompt with
    | error e' =>
      simp only [hu] at h
      exact (Except.error.inj h) ▸ uncondTokens_error_cases hu
    | ok l =>
      simp only [hu] at h
      exact Except.noConfusion h
  · simp [textEmbRes, hg] at h

theorem latentsRes_error_cases {env : Env} {a : CallArgs} {bs : ℕ} {e : PyErr}
    (h : latentsRes env a bs = .error e) :
    e = .latentsShapeValueError
      ∧ ∃ l, a.latents = some l ∧ l.shape ≠ [bs, 4, a.height / 8, a.width / 8] := by
  cases hl : a.latents with
  | none =>
    simp only [latentsRes, hl] at h
    exact Except.noConfusion h
  | some l =>
    simp only [latentsRes, hl] at h
    by_cases hsh : l.shape = [bs, 4, a.height / 8, a.width / 8]
    · rw [if_neg (by simpa using hsh)] at h
      exact Except.noConfusion h
    · rw [if_pos hsh] at h
      exact ⟨(Except.error.inj h).symm, l, rfl, hsh⟩

theorem call_error_cases {env : Env} {a : CallArgs} {e : PyErr}
    (h : call env a = .error e) :
    (e = .promptTypeValueError ∧ a.prompt = .other)
      ∨ (e = .dimsValueError ∧ (a.height % 8 ≠ 0 ∨ a.width % 8 ≠ 0))
      ∨ ((e = .negPromptTypeError ∨ e = .negPromptLenValueError)
          ∧ 1 < a.guidance_scale)
      ∨ (e = .latentsShapeValueError
          ∧ ∃ l, a.latents = some l
              ∧ l.shape ≠ [batchSizeD a.prompt, 4, a.height / 8, a.width / 8]) := by
  rw [call] at h
  cases hbs : batch_size_of a.prompt with
  | error e' =>
    simp only [hbs] at h
    obtain ⟨he, hp⟩ := batch_size_of_error_cases hbs
    exact Or.inl ⟨(Except.error.inj h) ▸ he, hp⟩
  | ok bs =>
    simp only [hbs] at h
    have hbsv : bs = batchSizeD a.prompt := by
      cases hp : a.prompt <;> rw [hp] at hbs <;>
        simp_all [batch_size_of, batchSizeD]
    by_cases hd : a.height % 8 ≠ 0 ∨ a.width % 8 ≠ 0
    · rw [if_pos hd] at h
      exact Or.inr (Or.inl ⟨(Except.error.inj h).symm, hd⟩)
    · rw [if_neg hd] at h
      cases hemb : textEmbRes env a bs with
      | error e' =>
        simp only [hemb] at h
        exact Or.inr (Or.inr (Or.inl
          ((Except.error.inj h) ▸ textEmbRes_error_cases hemb)))
      | ok temb =>
        simp only [hemb] at h
        cases hlat : latentsRes env a bs with
        | error e' =>
          simp only [hlat] at h
          subst hbsv
          exact Or.inr (Or.inr (Or.inr
            ((Except.error.inj h) ▸ latentsRes_error_cases hlat)))
        | ok lat =>
          simp only [hlat] at h
          exact Except.noConfusion h

theorem call_error_of_emb {env : Env} {a : CallArgs} {bs : ℕ} {e : PyErr}
    (hb : batch_size_of a.prompt = .ok bs)
    (hdh : a.height % 8 = 0) (hdw : a.width % 8 = 0)
    (he : textEmbRes env a bs = .error e) : call env a = .error e := by
  rw [call]
  simp only [hb]
  rw [if_neg (by simp [hdh, hdw])]
  simp only [he]

/-! Concrete instances used to evaluate the theorems on closed inputs. -/

/-- A concrete environment whose external collaborators are simple total
functions, used for closed-term evaluation. -/
def env₁ : Env where
  model_max_length := 77
  tokenize := fun texts len => ⟨[texts.length, len], texts.map (fun _ => [1])⟩
  clip_inference := fun t => t
  controlnet_inference := fun lmi _ _ _ => ([lmi], lmi)
  unet_inference := fun lmi _ _ _ _ _ _ => lmi
  vae_inference := fun v _ _ => v
  timesteps := fun n => (List.range n).map (fun i => (i : ℚ))
  init_noise_sigma := 2
  scale_model_input := fun t _ => t
  scheduler_step := fun noise _ _ _ => noise
  randn := fun sh _ => ⟨sh, [[1 / 2]]⟩
  permute0231 := fun t => t

/-- A fully valid call: `str` prompt, dimensions divisible by 8, guidance
scale above 1, no negative prompt, latents of the expected shape. -/
def a₂ : CallArgs where
  prompt := .str "p"
  control_cond := ⟨[1, 3, 8, 8], [[1]]⟩
  height := 8
  width := 8
  num_inference_steps := 1
  guidance_scale := 2
  negative_prompt := none
  eta := 0
  generator := none
  latents := some ⟨[1, 4, 1, 1], [[3, 5]]⟩
  output_type := "pil"
  return_dict := true

/-- Like `a₂` but with `guidance_scale = 1` and a list-typed negative
prompt: the negative prompt is never validated. -/
def a₃ : CallArgs :=
  { a₂ with guidance_scale := 1, negative_prompt := some (.list []) }

/-- Like `a₂` but with a height not divisible by 8. -/
def a₄ : CallArgs := { a₂ with height := 7 }

/-- Like `a₂` but with a prompt that is neither `str` nor `list`. -/
def a₅ : CallArgs := { a₂ with prompt := .other }

/-- Like `a₂` but with a mistyped negative prompt and latents of a wrong
shape: the type error fires before the latents shape is ever checked. -/
def a₆ : CallArgs :=
  { a₂ with negative_prompt := some (.list ["x"]), latents := some ⟨[9], [[0]]⟩ }

/-- Like `a₂` but with `guidance_scale = 1`. -/
def a₉ : CallArgs := { a₂ with guidance_scale := 1 }

/-- The output of the valid call `a₂` under `env₁`. -/
def out₂ : CallOut :=
  (call env₁ a₂).toOption.getD ⟨ImagesOut.arr ⟨[], []⟩, none, false⟩

/-! The claims. -/

/-- C1: in every denoising iteration of every call, the noise prediction
passed to `scheduler.step` equals `noise_pred_uncond + guidance_scale *
(noise_pred_text - noise_pred_uncond)` — with `noise_pred_uncond` and
`noise_pred_text` the first and second halves of the UNet output chunked
along the batch dimension — when `guidance_scale > 1.0`, and is the UNet
output unmodified when `guidance_scale ≤ 1.0`.  `denoiseIter` applied to
`decide (1 < g)` is exactly the loop body `call` folds over the scheduler
timesteps. -/
theorem C1_guidance_combination (env : Env) (g : ℚ) (temb cc : Tensor)
    (hh ww : ℕ) (gen : Option ℕ) (lat : Tensor) (t : ℚ) :
    denoiseIter env (decide (1 < g)) g temb cc hh ww gen lat t
      = env.scheduler_step
          (if 1 < g then guidanceCombine g (rawUnetOut env g temb cc hh ww lat t)
           else rawUnetOut env g temb cc hh ww lat t) t lat gen := by
  by_cases hg : 1 < g <;>
    simp [denoiseIter, rawUnetOut, guidanceCombine, hg]

/-- C2: every call passing validation runs the denoising recurrence
described by the claim — `claimOutput` folds `claimIterate` over
`scheduler.timesteps` in their given order (duplicated and scaled latent
input, ControlNet residuals fed to the UNet of the same iteration,
next latents `scheduler.step(...).prev_sample`), then multiplies by
`1 / 0.18215` and decodes with `vae_inference`. -/
theorem C2_denoising_loop (env : Env) (a : CallArgs)
    (h : passesChecks a = true) :
    call env a = .ok (claimOutput env a) := by
  rw [call_eq_ok_of_checks env a h]
  have hfun :
      denoiseIter env (decide (1 < a.guidance_scale)) a.guidance_scale
        (textEmbeddingsD env a (batchSizeD a.prompt)) a.control_cond
        a.height a.width a.generator
      = claimIterate env a.guidance_scale
        (textEmbeddingsD env a (batchSizeD a.prompt)) a.control_cond
        a.height a.width a.generator :=
    funext fun lat => funext fun t =>
      denoiseIter_eq_claimIterate env a.guidance_scale _ _ _ _ _ lat t
  simp only [successOut, denoiseAndPack, claimOutput, hfun]

/-- C2 witness: the valid call `a₂` under `env₁` satisfies the checks and
returns exactly the claim-worded output. -/
theorem C2_denoising_loop_witness :
    passesChecks a₂ = true ∧ call env₁ a₂ = .ok (claimOutput env₁ a₂) :=
  ⟨by decide, C2_denoising_loop env₁ a₂ (by decide)⟩

/-- C3 as frozen is false: when `guidance_scale ≤ 1.0` the negative-prompt
validation never runs.  Here `a₃` supplies a list-typed negative prompt
with a str prompt and `guidance_scale = 1`, yet the call succeeds rather
than raising `TypeError`. -/
theorem C3_counterexample :
    a₃.negative_prompt = some (PromptVal.list [])
      ∧ sameType a₃.prompt (PromptVal.list []) = false
      ∧ a₃.guidance_scale = 1
      ∧ (call env₁ a₃).isOk = true :=
  ⟨rfl, rfl, rfl, rfl⟩

/-- C3 (amended): for every call that passes the prompt-type and dimension
checks and has `guidance_scale > 1.0`, a provided `negative_prompt` whose
type differs from the prompt's raises `TypeError`, and a list prompt with a
list negative prompt of differing length raises `ValueError`. -/
theorem C3_neg_prompt_validation (env : Env) (a : CallArgs)
    (hp : a.prompt ≠ .other) (hdh : a.height % 8 = 0) (hdw : a.width % 8 = 0)
    (hg : 1 < a.guidance_scale) :
    (∀ n, a.negative_prompt = some n → sameType a.prompt n = false →
        call env a = .error .negPromptTypeError
          ∧ PyErr.isTypeError .negPromptTypeError = true)
      ∧ (∀ p nl, a.prompt = .list p → a.negative_prompt = some (.list nl) →
          p.length ≠ nl.length →
          call env a = .error .negPromptLenValueError
            ∧ PyErr.isValueError .negPromptLenValueError = true) := by
  have hb : batch_size_of a.prompt = .ok (batchSizeD a.prompt) := by
    cases hc : a.prompt <;> simp_all [batch_size_of, batchSizeD]
  constructor
  · intro n hn hty
    refine ⟨call_error_of_emb hb hdh hdw ?_, rfl⟩
    simp only [textEmbRes]
    rw [if_pos (by simp [hg])]
    simp [uncondTokens, hn, hty]
  · intro p nl hpl hn hlen
    refine ⟨call_error_of_emb hb hdh hdw ?_, rfl⟩
    simp only [textEmbRes]
    rw [if_pos (by simp [hg])]
    have hbs : batchSizeD a.prompt = p.length := by rw [hpl]; rfl
    simp only [uncondTokens, hn, hpl, sameType, Bool.not_true, Bool.false_eq_true,
      if_false, ite_not]
    rw [if_neg (by simpa [batchSizeD] using hlen)]

/-- C3 witness: `a₆` (str prompt, list negative prompt, guidance 2) raises
the negative-prompt `TypeError`. -/
theorem C3_neg_prompt_validation_witness :
    call env₁ a₆ = .error .negPromptTypeError :=
  ((C3_neg_prompt_validation env₁ a₆ (by decide) (by decide) (by decide)
      (by decide)).1 (PromptVal.list ["x"]) rfl (by decide)).1

/-- C4 as frozen is false: a `ValueError` can be raised even when the
prompt is a valid `str` — here the dimension check fires on `a₄`
(height 7) although its prompt is `str`. -/
theorem C4_counterexample :
    a₄.prompt = PromptVal.str "p"
      ∧ call env₁ a₄ = .error .dimsValueError
      ∧ PyErr.isValueError .dimsValueError = true :=
  ⟨rfl, rfl, rfl⟩

/-- C4 (amended): the prompt-type `ValueError` is raised if and only if
the prompt is neither a `str` nor a `list`; a `str` prompt gives batch
size 1 and a `list` prompt gives batch size equal to its length. -/
theorem C4_prompt_validation (env : Env) (a : CallArgs) :
    (call env a = .error .promptTypeValueError ↔ a.prompt = .other)
      ∧ (∀ s, batch_size_of (.str s) = .ok 1)
      ∧ (∀ l, batch_size_of (.list l) = .ok l.length) := by
  refine ⟨⟨?_, ?_⟩, fun s => rfl, fun l => rfl⟩
  · intro h
    rcases call_error_cases h with ⟨-, hp⟩ | ⟨he, -⟩ | ⟨he, -⟩ | ⟨he, -⟩
    · exact hp
    · exact absurd he (by decide)
    · rcases he with he | he <;> exact absurd he (by decide)
    · exact absurd he (by decide)
  · intro h
    simp [call, h, batch_size_of]

/-- C4 witness: the `.other` prompt of `a₅` raises the prompt-type
`ValueError`. -/
theorem C4_prompt_validation_witness :
    call env₁ a₅ = .error .promptTypeValueError :=
  (C4_prompt_validation env₁ a₅).1.mpr rfl

/-- C5: for every call whose prompt has a valid type, a `ValueError` is
raised when height or width is not divisible by 8, and the
dimension-divisibility error is never raised when both are divisible
by 8. -/
theorem C5_dims_validation (env : Env) (a : CallArgs)
    (hp : a.prompt ≠ .other) :
    ((a.height % 8 ≠ 0 ∨ a.width % 8 ≠ 0) →
        call env a = .error .dimsValueError
          ∧ PyErr.isValueError .dimsValueError = true)
      ∧ (a.height % 8 = 0 → a.width % 8 = 0 →
          call env a ≠ .error .dimsValueError) := by
  have hb : batch_size_of a.prompt = .ok (batchSizeD a.prompt) := by
    cases hc : a.prompt <;> simp_all [batch_size_of, batchSizeD]
  constructor
  · intro hd
    refine ⟨?_, rfl⟩
    rw [call]
    simp only [hb]
    rw [if_pos hd]
  · intro hdh hdw hc
    rcases call_error_cases hc with ⟨he, -⟩ | ⟨-, hd⟩ | ⟨he, -⟩ | ⟨he, -⟩
    · exact absurd he (by decide)
    · rcases hd with hd | hd
      · exact hd hdh
      · exact hd hdw
    · rcases he with he | he <;> exact absurd he (by decide)
    · exact absurd he (by decide)

/-- C5 witness: height 7 with a `str` prompt raises the dimension
`ValueError`. -/
theorem C5_dims_validation_witness :
    call env₁ a₄ = .error .dimsValueError :=
  ((C5_dims_validation env₁ a₄ (by decide)).1 (Or.inl (by decide))).1

/-- C6 as frozen is false: `a₆` supplies latents whose shape differs from
`(batch_size, 4, height // 8, width // 8)`, yet the raised exception is
the negative-prompt `TypeError` — not a `ValueError`. -/
theorem C6_counterexample :
    a₆.latents = some (⟨[9], [[0]]⟩ : Tensor)
      ∧ ([9] : List ℕ) ≠ [batchSizeD a₆.prompt, 4, a₆.height / 8, a₆.width / 8]
      ∧ call env₁ a₆ = .error .negPromptTypeError
      ∧ PyErr.isValueError .negPromptTypeError = false :=
  ⟨rfl, by decide, rfl, rfl⟩

/-- C6 (amended): for every call passing the prompt-type, dimension and
negative-prompt checks — when latents are supplied, a `ValueError` is
raised iff their shape differs from `(batch_size, 4, height // 8,
width // 8)`, and latents of the expected shape flow into `successOut`
(which multiplies them by `init_noise_sigma` before the loop); when
latents are not supplied, a fresh `randn` tensor of exactly that shape,
sampled with the supplied generator, flows into `successOut`. -/
theorem C6_latents_validation (env : Env) (a : CallArgs)
    (hpre : preLatentsChecks a = true)
    (hr : ∀ sh g, (env.randn sh g).shape = sh) :
    (∀ l, a.latents = some l →
        (((∃ e, call env a = .error e ∧ e.isValueError = true)
            ↔ l.shape ≠ [batchSizeD a.prompt, 4, a.height / 8, a.width / 8])
          ∧ (l.shape = [batchSizeD a.prompt, 4, a.height / 8, a.width / 8] →
              call env a = .ok (successOut env a l))))
      ∧ (a.latents = none →
          (env.randn [batchSizeD a.prompt, 4, a.height / 8, a.width / 8]
                a.generator).shape
              = [batchSizeD a.prompt, 4, a.height / 8, a.width / 8]
            ∧ call env a = .ok (successOut env a
                (env.randn [batchSizeD a.prompt, 4, a.height / 8, a.width / 8]
                  a.generator))) := by
  have h' := hpre
  simp only [preLatentsChecks, Bool.and_eq_true] at h'
  obtain ⟨⟨⟨hbs, hh⟩, hw⟩, hneg⟩ := h'
  have hb := batch_size_of_eq hbs
  have hdim : ¬(a.height % 8 ≠ 0 ∨ a.width % 8 ≠ 0) := by
    simp only [beq_iff_eq] at hh hw
    simp [hh, hw]
  constructor
  · intro l hl
    by_cases hsh : l.shape = [batchSizeD a.prompt, 4, a.height / 8, a.width / 8]
    · have hchk : passesChecks a = true := by
        simp only [passesChecks, Bool.and_eq_true]
        refine ⟨hpre, ?_⟩
        rw [hl]
        simpa using hsh
      have hok := call_eq_ok_of_checks env a hchk
      rw [show initialLatentsD env a = l from by
        simp [initialLatentsD, hl]] at hok
      refine ⟨⟨?_, ?_⟩, fun _ => hok⟩
      · rintro ⟨e, he, -⟩
        rw [hok] at he
        exact Except.noConfusion he
      · intro hne
        exact absurd hsh hne
    · have herr : call env a = .error .latentsShapeValueError := by
        rw [call]
        simp only [hb]
        rw [if_neg hdim, textEmbRes_eq_ok hneg]
        simp only [latentsRes, hl]
        rw [if_pos hsh]
      exact ⟨⟨fun _ => hsh, fun _ => ⟨_, herr, rfl⟩⟩, fun hctr => absurd hctr hsh⟩
  · intro hl
    refine ⟨hr _ _, ?_⟩
    have hchk : passesChecks a = true := by
      simp only [passesChecks, Bool.and_eq_true]
      exact ⟨hpre, by rw [hl]⟩
    have hok := call_eq_ok_of_checks env a hchk
    rwa [show initialLatentsD env a
        = env.randn [batchSizeD a.prompt, 4, a.height / 8, a.width / 8] a.generator
      from by simp [initialLatentsD, hl]] at hok

/-- C6 witness: the correctly shaped latents of `a₂` flow into the
success path. -/
theorem C6_latents_validation_witness :
    call env₁ a₂ = .ok (successOut env₁ a₂ (⟨[1, 4, 1, 1], [[3, 5]]⟩ : Tensor)) :=
  ((C6_latents_validation env₁ a₂ (by decide) (fun sh g => rfl)).1
      (⟨[1, 4, 1, 1], [[3, 5]]⟩ : Tensor) rfl).2 (by decide)

/-- C7: in the runtime-event trace, each compiled module has its constants
set (`set_many_constants_with_tensors`) strictly before `fold_constants`
during `__init__`, and every `run_with_tensors` on that module — whatever
the guidance flag and step count of the subsequent `__call__` — occurs
strictly after that module's `fold_constants`. -/
theorem C7_runtime_call_order (do_cfg : Bool) (steps : ℕ) (m : AITModule) :
    List.indexOf (m, RtOp.set_many_constants_with_tensors) initEvents
        < List.indexOf (m, RtOp.fold_constants) initEvents
      ∧ ∀ k, (programEvents do_cfg steps)[k]? = some (m, RtOp.run_with_tensors) →
          List.indexOf (m, RtOp.fold_constants) initEvents < k := by
  constructor
  · cases m <;> decide
  · intro k hk
    have hfold : List.indexOf (m, RtOp.fold_constants) initEvents < 8 := by
      cases m <;> decide
    rcases Nat.lt_or_ge k 8 with hk8 | hk8
    · exfalso
      have hlen : k < initEvents.length := hk8
      rw [programEvents, List.getElem?_append_left hlen] at hk
      interval_cases k <;> revert hk <;> cases m <;> decide
    · omega

/-- C7 witness: the UNet run at index 11 of the two-step guided program
trace happens after the UNet constant fold. -/
theorem C7_runtime_call_order_witness :
    List.indexOf (AITModule.unet, RtOp.fold_constants) initEvents < 11 :=
  (C7_runtime_call_order true 2 .unet).2 11 (by decide)

/-- C8: every call that returns without raising has
`nsfw_content_detected = None` (no safety checker exists in the
pipeline). -/
theorem C8_no_safety_checker (env : Env) (a : CallArgs) (out : CallOut)
    (h : call env a = .ok out) : out.nsfw_content_detected = none := by
  obtain ⟨temb, lat, rfl⟩ := call_ok_inv h
  rfl

/-- C8 witness: the output of the valid call `a₂`. -/
theorem C8_no_safety_checker_witness :
    out₂.nsfw_content_detected = none :=
  C8_no_safety_checker env₁ a₂ out₂ rfl

/-- C9: two calls identical except for `negative_prompt` produce the same
result whenever `guidance_scale ≤ 1.0`, and no negative-prompt type or
length validation error is ever raised in that regime. -/
theorem C9_negative_prompt_noninterference (env : Env) (a : CallArgs)
    (n₁ n₂ : Option PromptVal) (hg : a.guidance_scale ≤ 1) :
    call env { a with negative_prompt := n₁ }
        = call env { a with negative_prompt := n₂ }
      ∧ (∀ n e, call env { a with negative_prompt := n } = .error e →
          e ≠ .negPromptTypeError ∧ e ≠ .negPromptLenValueError) := by
  have hg' : ¬(1 < a.guidance_scale) := not_lt.mpr hg
  constructor
  · simp [call, textEmbRes, latentsRes, denoiseAndPack, hg']
  · intro n e he
    rcases call_error_cases he with ⟨hee, -⟩ | ⟨hee, -⟩ | ⟨-, hgg⟩ | ⟨hee, -⟩
    · subst hee; exact ⟨by decide, by decide⟩
    · subst hee; exact ⟨by decide, by decide⟩
    · exact absurd hgg hg'
    · subst hee; exact ⟨by decide, by decide⟩

/-- C9 witness: with `guidance_scale = 1`, replacing no negative prompt by
a list-typed one does not change the call's result. -/
theorem C9_negative_prompt_noninterference_witness :
    call env₁ { a₉ with negative_prompt := none }
      = call env₁ { a₉ with negative_prompt := some (.list []) } :=
  (C9_negative_prompt_noninterference env₁ a₉ none (some (.list []))
      (by decide)).1

/-- C10: every element of the image array underlying the output of a
returning call (the array converted to PIL or returned directly) lies in
`[0, 1]`: the decoded image is mapped through `x / 2 + 1 / 2` and clamped
to `[0, 1]`, and the final permute only rearranges elements. -/
theorem C10_image_range (env : Env) (a : CallArgs) (out : CallOut)
    (hperm : ∀ t : Tensor, ∀ x : ℚ, x ∈ (env.permute0231 t).elems → x ∈ t.elems)
    (h : call env a = .ok out) :
    ∀ x ∈ out.images.srcElems, 0 ≤ x ∧ x ≤ 1 := by
  obtain ⟨temb, lat, rfl⟩ := call_ok_inv h
  obtain ⟨v, hv⟩ := srcElems_denoiseAndPack env a temb lat
  intro x hx
  rw [hv] at hx
  exact mem_clamp01 (hperm _ _ hx)

/-- C10 witness: the valid call `a₂` under `env₁` (identity permute)
yields images with every element in `[0, 1]`. -/
theorem C10_image_range_witness :
    call env₁ a₂ = .ok out₂
      ∧ ∀ x ∈ out₂.images.srcElems, 0 ≤ x ∧ x ≤ 1 :=
  ⟨rfl, C10_image_range env₁ a₂ out₂ (fun _ _ hx => hx) rfl⟩

end SDAIT
